import Mathlib

/-
Verification development for the InsightAgent task store and websocket
service. The definitions below are shallow embeddings of the TypeScript
sources:

- the task/notification data model and the zustand store operations
  (`useTaskStore` / `useAppStore`): `updateTaskStatus`,
  `updateTaskProgress`, `updateTaskResult`, `removeTask`, `addTaskLog`,
  `getTaskLogs`, `getRecentTasks`, `addNotification`;
- the `WebSocketService` listener registry: `on`, `off`, `emit`.

Modelling conventions:
- timestamps (`created_at`, `updated_at`, ...) are ISO strings in the code
  and are always consumed through `new Date(s).getTime()`; they are
  modelled directly by their epoch-millisecond value as a `Nat`;
- the store's task list is a `List Task` (newest task first, as the code
  prepends with `[task, ...state.tasks]`);
- the `Map` from task id to logs (and from event name to callbacks) with
  `get(k) || []` access is modelled as a total function with default `[]`
  (respectively as `String → Option (List κ)` where entry presence
  matters, mirroring `Map.has`);
- JavaScript callbacks are compared by reference identity (`indexOf` uses
  strict equality), modelled by an abstract type `κ` with decidable
  equality; a callback invocation that may throw is modelled as a value of
  `Except String Unit`;
- the `any`-typed chart payload is modelled as a `String`.
-/

namespace InsightAgent

/-- Task status enum from the frontend types. -/
inductive TaskStatus
  | QUEUED
  | RUNNING
  | COMPLETED
  | FAILED
  | CANCELLED
deriving DecidableEq, Repr

/-- Log level enum from the frontend types. -/
inductive LogLevel
  | DEBUG
  | INFO
  | WARNING
  | ERROR
deriving DecidableEq, Repr

/-- TaskLog record: id, task_id, level, message, optional step, created_at. -/
structure TaskLog where
  id : String
  task_id : String
  level : LogLevel
  message : String
  step : Option String
  created_at : Nat
deriving DecidableEq, Repr

/-- MarketAnalysis record. -/
structure MarketAnalysis where
  market_size : String
  target_audience : String
  competitive_landscape : String
  market_trends : String
deriving DecidableEq, Repr

/-- ProductAnalysis record (SWOT lists). -/
structure ProductAnalysis where
  strengths : List String
  weaknesses : List String
  opportunities : List String
  threats : List String
deriving DecidableEq, Repr

/-- Recommendations record (short/medium/long-term lists). -/
structure Recommendations where
  short_term : List String
  medium_term : List String
  long_term : List String
deriving DecidableEq, Repr

/-- Chart descriptor; the `data: any` payload is modelled as a string. -/
structure Chart where
  type : String
  title : String
  data : String
deriving DecidableEq, Repr

/-- DataVisualization record. -/
structure DataVisualization where
  charts : List Chart
deriving DecidableEq, Repr

/-- AnalysisResult record attached to a task on success. -/
structure AnalysisResult where
  id : String
  task_id : String
  market_analysis : MarketAnalysis
  product_analysis : ProductAnalysis
  recommendations : Recommendations
  data_visualization : DataVisualization
  created_at : Nat
deriving DecidableEq, Repr

/-- Task record from the frontend types; timestamps as epoch milliseconds. -/
structure Task where
  id : String
  product_name : String
  status : TaskStatus
  progress : Nat
  created_at : Nat
  updated_at : Nat
  completed_at : Option Nat
  user_id : String
  result : Option AnalysisResult
  logs : Option (List TaskLog)
deriving DecidableEq, Repr

/-- Terminal statuses per the state machine: COMPLETED, FAILED, CANCELLED. -/
def TaskStatus.isTerminal : TaskStatus → Bool
  | TaskStatus.COMPLETED => true
  | TaskStatus.FAILED => true
  | TaskStatus.CANCELLED => true
  | _ => false

/-- Store operation `updateTaskStatus`: maps over the task list and, for the
task whose id matches, overwrites `status` and refreshes `updated_at`
(`new Date().toISOString()` is passed in as `now`); no guard of any kind is
applied to the current status. -/
def updateTaskStatus (taskId : String) (status : TaskStatus) (now : Nat)
    (tasks : List Task) : List Task :=
  tasks.map fun task =>
    if task.id = taskId then { task with status := status, updated_at := now } else task

/-- Store operation `updateTaskProgress`: maps over the task list and, for the
task whose id matches, overwrites `progress` and refreshes `updated_at`;
no comparison with the previous progress and no status check is performed. -/
def updateTaskProgress (taskId : String) (progress : Nat) (now : Nat)
    (tasks : List Task) : List Task :=
  tasks.map fun task =>
    if task.id = taskId then { task with progress := progress, updated_at := now } else task

/-- Store operation `updateTaskResult`: maps over the task list and, for the
task whose id matches, overwrites `result` and refreshes `updated_at`;
the status field is not consulted and not changed. -/
def updateTaskResult (taskId : String) (result : AnalysisResult) (now : Nat)
    (tasks : List Task) : List Task :=
  tasks.map fun task =>
    if task.id = taskId then { task with result := some result, updated_at := now } else task

/-- Store operation `removeTask`: filters the task whose id matches out of the
list; the status field is not consulted. -/
def removeTask (taskId : String) (tasks : List Task) : List Task :=
  tasks.filter fun task => task.id != taskId

/-- Map from task id to its log list; `taskLogs.get(id) || []` is modelled by
totalizing with default `[]`. -/
abbrev TaskLogMap : Type := String → List TaskLog

/-- Store operation `addTaskLog`: appends the log entry at the end of the
matching task id's list (`[...existingLogs, log]`); other ids keep their
lists. -/
def addTaskLog (taskId : String) (log : TaskLog) (taskLogs : TaskLogMap) : TaskLogMap :=
  fun id => if id = taskId then taskLogs taskId ++ [log] else taskLogs id

/-- Store operation `getTaskLogs`: returns the list stored for the id, or `[]`. -/
def getTaskLogs (taskId : String) (taskLogs : TaskLogMap) : List TaskLog :=
  taskLogs taskId

/-- Comparator of `getRecentTasks`: the JS comparator
`(a, b) => Date(b.created_at) - Date(a.created_at)` sorts by creation time
descending, i.e. `a` comes no later than `b` iff `b.created_at ≤ a.created_at`. -/
def recentFirst (a b : Task) : Bool :=
  decide (b.created_at ≤ a.created_at)

/-- Default `limit` argument of `getRecentTasks`. -/
def defaultRecentLimit : Nat := 10

/-- Store operation `getRecentTasks`: sorts the tasks by creation time
descending and returns the first `limit` of them (`.slice(0, limit)`). -/
def getRecentTasks (limit : Nat) (tasks : List Task) : List Task :=
  (tasks.mergeSort recentFirst).take limit

/-- Notification record of the app store (`id` is generated from `Date.now()`). -/
structure Notice where
  id : String
  type : String
  title : String
  message : String
  duration : Option Nat
deriving DecidableEq, Repr

/-- Input of `addNotification` (`Omit<Notification, 'id'>`). -/
structure NoticeInput where
  type : String
  title : String
  message : String
  duration : Option Nat
deriving DecidableEq, Repr

/-- JS defaulting `notification.duration || 5000`: both `undefined` and `0` are
falsy and are replaced by 5000. -/
def defaultDuration : Option Nat → Nat
  | none => 5000
  | some 0 => 5000
  | some d => d

/-- The notification record built inside `addNotification` (`id` comes from
`Date.now().toString()`, passed in as `nowId`). -/
def mkNotice (nowId : String) (n : NoticeInput) : Notice :=
  { id := nowId, type := n.type, title := n.title, message := n.message,
    duration := some (defaultDuration n.duration) }

/-- Store operation `addNotification`: prepends the new notification and keeps
only the first 10 entries (`[newNotification, ...state.notifications].slice(0, 10)`).
The notifications list is newest-first, so the entry dropped at capacity is the
last one, which is the oldest. (The delayed `setTimeout` auto-removal is
real-time behaviour outside this embedding.) -/
def addNotification (nowId : String) (n : NoticeInput) (notifications : List Notice) :
    List Notice :=
  (mkNotice nowId n :: notifications).take 10

/-- Listener registry of `WebSocketService`:
`Map<string, Function[]>` modelled with entry presence (`Map.has`) visible. -/
abbrev Registry (κ : Type) : Type := String → Option (List κ)

/-- The registry with no entries. -/
def emptyRegistry (κ : Type) : Registry κ :=
  fun _ => none

/-- `WebSocketService.on` (named `onCallback` here because `on` is reserved):
ensures the event has an entry and pushes the callback at the end of its list. -/
def onCallback {κ : Type} (event : String) (cb : κ) (m : Registry κ) : Registry κ :=
  fun e => if e = event then some ((m event).getD [] ++ [cb]) else m e

/-- `WebSocketService.off`: with no entry for the event it returns unchanged;
with a callback argument it removes the first occurrence found by `indexOf`
(`splice` at that index, nothing when `indexOf` gives -1), which is exactly
`List.erase`; with no callback argument it deletes the whole entry. -/
def off {κ : Type} [DecidableEq κ] (event : String) (cb : Option κ) (m : Registry κ) :
    Registry κ :=
  match m event with
  | none => m
  | some callbacks =>
    match cb with
    | some c => fun e => if e = event then some (callbacks.erase c) else m e
    | none => fun e => if e = event then none else m e

/-- Outcome of `WebSocketService.emit`: the callbacks invoked, in invocation
order, and the errors caught and logged by the per-callback `try/catch`. -/
structure EmitResult (κ : Type) where
  invoked : List κ
  errorsLogged : List String
deriving DecidableEq, Repr

/-- The `forEach` body of `emit`: each callback is invoked inside its own
`try/catch`, so a throwing callback only adds a console error and the
iteration continues with the remaining callbacks. -/
def runCallbacks {κ : Type} (handler : κ → Except String Unit) :
    List κ → EmitResult κ
  | [] => ⟨[], []⟩
  | c :: rest =>
    match handler c with
    | Except.ok _ =>
      ⟨c :: (runCallbacks handler rest).invoked, (runCallbacks handler rest).errorsLogged⟩
    | Except.error e =>
      ⟨c :: (runCallbacks handler rest).invoked, e :: (runCallbacks handler rest).errorsLogged⟩

/-- `WebSocketService.emit`: when the registry has an entry for the event, run
every callback of that entry; otherwise do nothing. -/
def emit {κ : Type} (handler : κ → Except String Unit) (event : String)
    (m : Registry κ) : EmitResult κ :=
  match m event with
  | none => ⟨[], []⟩
  | some callbacks => runCallbacks handler callbacks

/-- Event kinds a subscriber can receive over a task subscription channel. -/
inductive SessionEvent
  | snapshot (status : TaskStatus) (progress : Nat) (logTail : List TaskLog)
  | taskUpdate (status : TaskStatus) (progress : Nat)
  | taskLog (entry : TaskLog)
deriving DecidableEq, Repr

/-- Whether an event is a snapshot event. -/
def SessionEvent.isSnapshot : SessionEvent → Bool
  | SessionEvent.snapshot _ _ _ => true
  | _ => false

/-- Whether an event is a terminal event: a task_update carrying a terminal
status. -/
def SessionEvent.isTerminalEvent : SessionEvent → Bool
  | SessionEvent.taskUpdate s _ => s.isTerminal
  | _ => false

/-- Modelled from the spec: the server side of `subscribeToTask` (the backend
Session Manager and Event Broadcaster) is not among the frontend sources —
`subscribeToTask` only sends `subscribe_task` over the socket. Per the spec,
a subscriber connecting while the task is RUNNING receives one snapshot event
carrying the current status, progress and log tail, then the live events
produced from that point on, terminated by the task's terminal event. -/
def midRunSubscriberStream (progress : Nat) (logTail : List TaskLog)
    (live : List SessionEvent) (finalStatus : TaskStatus) (finalProgress : Nat) :
    List SessionEvent :=
  SessionEvent.snapshot TaskStatus.RUNNING progress logTail ::
    (live ++ [SessionEvent.taskUpdate finalStatus finalProgress])

/-- Concrete RUNNING task used in concrete evaluations. -/
def exTaskRunning : Task :=
  { id := "t1", product_name := "Widget X", status := TaskStatus.RUNNING,
    progress := 50, created_at := 100, updated_at := 100, completed_at := none,
    user_id := "u1", result := none, logs := none }

/-- Concrete COMPLETED task used in concrete evaluations. -/
def exTaskCompleted : Task :=
  { id := "t2", product_name := "Widget Y", status := TaskStatus.COMPLETED,
    progress := 100, created_at := 200, updated_at := 300, completed_at := some 300,
    user_id := "u1", result := none, logs := none }

/-- Concrete FAILED task used in concrete evaluations. -/
def exTaskFailed : Task :=
  { id := "t3", product_name := "Widget Z", status := TaskStatus.FAILED,
    progress := 40, created_at := 400, updated_at := 500, completed_at := none,
    user_id := "u2", result := none, logs := none }

/-- Concrete analysis result used in concrete evaluations. -/
def exResult : AnalysisResult :=
  { id := "r1", task_id := "t3",
    market_analysis :=
      { market_size := "large", target_audience := "devs",
        competitive_landscape := "crowded", market_trends := "up" },
    product_analysis :=
      { strengths := ["fast"], weaknesses := [], opportunities := [], threats := [] },
    recommendations :=
      { short_term := ["ship"], medium_term := [], long_term := [] },
    data_visualization := { charts := [] },
    created_at := 600 }

/-- Concrete log entry used in concrete evaluations. -/
def exLog : TaskLog :=
  { id := "l1", task_id := "t1", level := LogLevel.INFO, message := "stage done",
    step := some "collection", created_at := 150 }

/-- Concrete notification used in concrete evaluations. -/
def exNotice : Notice :=
  { id := "0", type := "info", title := "t", message := "m", duration := some 5000 }

/-- Concrete notification input used in concrete evaluations. -/
def exNoticeInput : NoticeInput :=
  { type := "success", title := "done", message := "ok", duration := none }

/-- Queue of exactly 10 notifications, i.e. a queue at capacity. -/
def tenNotices : List Notice := List.replicate 10 exNotice

/-- Concrete registry mapping event "e" to a single callback 0. -/
def regOne : Registry Nat :=
  fun e => if e = "e" then some [0] else none

/-- Concrete registry mapping event "e" to the callback 0 registered twice. -/
def regDup : Registry Nat :=
  fun e => if e = "e" then some [0, 0] else none

/-- Claim C1 fails on the code: `updateTaskProgress` overwrites progress
unconditionally. A RUNNING task at progress 50 is moved down to 30, and a
COMPLETED (terminal) task's progress is changed as well. -/
theorem updateTaskProgress_not_monotone :
    (exTaskRunning.status = TaskStatus.RUNNING ∧ exTaskRunning.progress = 50 ∧
      (updateTaskProgress "t1" 30 7 [exTaskRunning]).map Task.progress = [30] ∧
      ¬ (50 ≤ 30)) ∧
    (exTaskCompleted.status.isTerminal = true ∧ exTaskCompleted.progress = 100 ∧
      (updateTaskProgress "t2" 30 7 [exTaskCompleted]).map Task.progress = [30]) := by
  decide

/-- Claim C1 (amended): `updateTaskProgress` sets the matching task's progress
to exactly the given value and refreshes `updated_at`, regardless of the
task's current status or previous progress — it may decrease progress while
RUNNING and it modifies terminal tasks; tasks whose id differs are unchanged. -/
theorem updateTaskProgress_sets_unconditionally (taskId : String) (p now : Nat)
    (tasks : List Task) (i : Nat) (hi : i < tasks.length)
    (hi2 : i < (updateTaskProgress taskId p now tasks).length) :
    (updateTaskProgress taskId p now tasks).get ⟨i, hi2⟩ =
      (if (tasks.get ⟨i, hi⟩).id = taskId
        then { tasks.get ⟨i, hi⟩ with progress := p, updated_at := now }
        else tasks.get ⟨i, hi⟩) := by
  simp [updateTaskProgress, List.get_eq_getElem, List.getElem_map]

/-- Concrete run of `updateTaskProgress_sets_unconditionally` on a COMPLETED
task: its progress is overwritten to 30. -/
theorem updateTaskProgress_sets_unconditionally_witness :
    (updateTaskProgress "t2" 30 7 [exTaskCompleted]).get ⟨0, by decide⟩ =
      { exTaskCompleted with progress := 30, updated_at := 7 } :=
  (updateTaskProgress_sets_unconditionally "t2" 30 7 [exTaskCompleted] 0
      (by decide) (by decide)).trans (by decide)

/-- Claim C2 fails on the code: `updateTaskStatus` overwrites status
unconditionally, so a COMPLETED (terminal) task is moved back to RUNNING. -/
theorem updateTaskStatus_leaves_terminal :
    exTaskCompleted.status = TaskStatus.COMPLETED ∧
    exTaskCompleted.status.isTerminal = true ∧
    (updateTaskStatus "t2" TaskStatus.RUNNING 7 [exTaskCompleted]).map Task.status =
      [TaskStatus.RUNNING] := by
  decide

/-- Claim C2 (amended): `updateTaskStatus` sets the matching task's status to
the given value unconditionally — every transition is possible, including
transitions out of the terminal states; tasks whose id differs are unchanged. -/
theorem updateTaskStatus_sets_unconditionally (taskId : String) (s : TaskStatus)
    (now : Nat) (tasks : List Task) (i : Nat) (hi : i < tasks.length)
    (hi2 : i < (updateTaskStatus taskId s now tasks).length) :
    (updateTaskStatus taskId s now tasks).get ⟨i, hi2⟩ =
      (if (tasks.get ⟨i, hi⟩).id = taskId
        then { tasks.get ⟨i, hi⟩ with status := s, updated_at := now }
        else tasks.get ⟨i, hi⟩) := by
  simp [updateTaskStatus, List.get_eq_getElem, List.getElem_map]

/-- Concrete run of `updateTaskStatus_sets_unconditionally`: a COMPLETED task
is moved back to RUNNING. -/
theorem updateTaskStatus_sets_unconditionally_witness :
    (updateTaskStatus "t2" TaskStatus.RUNNING 7 [exTaskCompleted]).get ⟨0, by decide⟩ =
      { exTaskCompleted with status := TaskStatus.RUNNING, updated_at := 7 } :=
  (updateTaskStatus_sets_unconditionally "t2" TaskStatus.RUNNING 7 [exTaskCompleted] 0
      (by decide) (by decide)).trans (by decide)

/-- Claim C5: `addTaskLog` appends the entry at the end of the matching task
id's log sequence — every previously appended entry is retained, unchanged and
in its old position — and the log sequence of any other task id is unchanged. -/
theorem addTaskLog_appends (taskId other : String) (hne : other ≠ taskId)
    (log : TaskLog) (taskLogs : TaskLogMap) :
    getTaskLogs taskId (addTaskLog taskId log taskLogs) =
      getTaskLogs taskId taskLogs ++ [log] ∧
    getTaskLogs other (addTaskLog taskId log taskLogs) = getTaskLogs other taskLogs := by
  constructor
  · simp [getTaskLogs, addTaskLog]
  · simp [getTaskLogs, addTaskLog, hne]

/-- Concrete run of `addTaskLog_appends` on the empty log map. -/
theorem addTaskLog_appends_witness :
    getTaskLogs "t1" (addTaskLog "t1" exLog (fun _ => [])) =
      getTaskLogs "t1" (fun _ => []) ++ [exLog] ∧
    getTaskLogs "t2" (addTaskLog "t1" exLog (fun _ => [])) =
      getTaskLogs "t2" (fun _ => []) :=
  addTaskLog_appends "t1" "t2" (by decide) exLog (fun _ => [])

/-- Claim C6 fails on the code: `updateTaskResult` attaches the result without
consulting the status — a FAILED task gets a result attached — and it never
transitions the task: a RUNNING task keeps status RUNNING after the result is
set. -/
theorem updateTaskResult_ignores_status :
    (exTaskFailed.status = TaskStatus.FAILED ∧ exTaskFailed.result = none ∧
      (updateTaskResult "t3" exResult 7 [exTaskFailed]).map Task.result =
        [some exResult]) ∧
    (exTaskRunning.status = TaskStatus.RUNNING ∧
      (updateTaskResult "t1" exResult 7 [exTaskRunning]).map Task.status =
        [TaskStatus.RUNNING]) := by
  decide

/-- Claim C6 (amended): `updateTaskResult` sets the matching task's result to
the given value for any current status — not only RUNNING — and never changes
the status (in particular it does not transition the task to COMPLETED);
tasks whose id differs are unchanged. -/
theorem updateTaskResult_sets_unconditionally (taskId : String)
    (r : AnalysisResult) (now : Nat) (tasks : List Task) (i : Nat)
    (hi : i < tasks.length)
    (hi2 : i < (updateTaskResult taskId r now tasks).length) :
    (updateTaskResult taskId r now tasks).get ⟨i, hi2⟩ =
      (if (tasks.get ⟨i, hi⟩).id = taskId
        then { tasks.get ⟨i, hi⟩ with result := some r, updated_at := now }
        else tasks.get ⟨i, hi⟩) := by
  simp [updateTaskResult, List.get_eq_getElem, List.getElem_map]

/-- Concrete run of `updateTaskResult_sets_unconditionally` on a FAILED task:
the result is attached and the status stays FAILED. -/
theorem updateTaskResult_sets_unconditionally_witness :
    (updateTaskResult "t3" exResult 7 [exTaskFailed]).get ⟨0, by decide⟩ =
      { exTaskFailed with result := some exResult, updated_at := 7 } :=
  (updateTaskResult_sets_unconditionally "t3" exResult 7 [exTaskFailed] 0
      (by decide) (by decide)).trans (by decide)

/-- Claim C7 fails on the code: `removeTask` deletes the matching task without
consulting the status — a RUNNING task is removed, with no rejection and no
error path at all. -/
theorem removeTask_removes_running :
    exTaskRunning.status = TaskStatus.RUNNING ∧
    removeTask "t1" [exTaskRunning] = [] := by
  decide

/-- Claim C7 (amended): `removeTask` removes every task with the given id
regardless of its status — RUNNING tasks included — keeping the remaining
tasks in order; no ConcurrencyConflict-style rejection exists in the code. -/
theorem removeTask_unconditional (taskId : String) (tasks : List Task)
    (t : Task) :
    (t ∈ removeTask taskId tasks ↔ t ∈ tasks ∧ t.id ≠ taskId) ∧
    (removeTask taskId tasks).Sublist tasks := by
  constructor
  · simp [removeTask, List.mem_filter]
  · exact List.filter_sublist _

/-- The callbacks invoked by the `forEach` loop of `emit` are exactly the
registered callbacks, in registration order, for any success/throw behaviour
of the callbacks. -/
theorem runCallbacks_invoked {κ : Type} (handler : κ → Except String Unit)
    (cbs : List κ) :
    (runCallbacks handler cbs).invoked = cbs := by
  induction cbs with
  | nil => rfl
  | cons c rest ih =>
    cases h : handler c <;> simp [runCallbacks, h, ih]

/-- Claim C10: `WebSocketService.emit` invokes every callback registered for
the event exactly once, in order, even when an earlier callback throws — the
per-callback try/catch confines a failing subscriber to a logged error. -/
theorem emit_invokes_all {κ : Type} (handler : κ → Except String Unit)
    (event : String) (m : Registry κ) (cbs : List κ)
    (h : m event = some cbs) :
    (emit handler event m).invoked = cbs := by
  have he : emit handler event m = runCallbacks handler cbs := by
    unfold emit
    rw [h]
  rw [he, runCallbacks_invoked]

/-- Concrete run of `emit_invokes_all`: callback 0 throws, callback 1 is still
invoked. -/
theorem emit_invokes_all_witness :
    (emit (fun c => if c = 0 then Except.error "boom" else Except.ok ()) "e"
        (fun e => if e = "e" then some [0, 1] else none)).invoked = [0, 1] :=
  emit_invokes_all (fun c => if c = 0 then Except.error "boom" else Except.ok ())
    "e" (fun e => if e = "e" then some [0, 1] else none) [0, 1] (by decide)

/-- Claim C4: `addNotification` keeps the queue within its capacity of 10;
below capacity the new entry is simply prepended with every old entry
retained in order, and at capacity the oldest entry — the last of the
newest-first list — is dropped while the new entry and all other entries are
kept in order. -/
theorem addNotification_spec (nowId : String) (n : NoticeInput)
    (q : List Notice) :
    (addNotification nowId n q).length ≤ 10 ∧
    (q.length < 10 → addNotification nowId n q = mkNotice nowId n :: q) ∧
    (q.length = 10 → addNotification nowId n q = mkNotice nowId n :: q.dropLast) := by
  refine ⟨?_, ?_, ?_⟩
  · simp only [addNotification, List.length_take]
    omega
  · intro hlt
    have hle : (mkNotice nowId n :: q).length ≤ 10 := by
      simp only [List.length_cons]
      omega
    simp [addNotification, List.take_of_length_le hle]
  · intro hcap
    have h9 : q.dropLast = q.take 9 := by
      rw [List.dropLast_eq_take, hcap]
    rw [addNotification, List.take_succ_cons, ← h9]

/-- Concrete run of `addNotification_spec` on a queue at capacity: the new
entry is kept and the oldest entry is dropped. -/
theorem addNotification_spec_witness :
    tenNotices.length = 10 ∧
    addNotification "99" exNoticeInput tenNotices =
      mkNotice "99" exNoticeInput :: tenNotices.dropLast :=
  ⟨by decide, (addNotification_spec "99" exNoticeInput tenNotices).2.2 (by decide)⟩

/-- The comparator of `getRecentTasks` is transitive. -/
theorem recentFirst_trans (a b c : Task) (hab : recentFirst a b = true)
    (hbc : recentFirst b c = true) : recentFirst a c = true := by
  simp only [recentFirst, decide_eq_true_eq] at *
  omega

/-- The comparator of `getRecentTasks` is total. -/
theorem recentFirst_total (a b : Task) :
    (recentFirst a b || recentFirst b a) = true := by
  simp only [recentFirst, Bool.or_eq_true, decide_eq_true_eq]
  exact Nat.le_total b.created_at a.created_at

/-- Claim C8: `getRecentTasks` returns tasks drawn from the store, ordered by
creation time descending (most recent first), truncated to the requested
limit, whose default is 10. -/
theorem getRecentTasks_spec (limit : Nat) (tasks : List Task) :
    (getRecentTasks limit tasks).length = min limit tasks.length ∧
    List.Pairwise (fun a b : Task => b.created_at ≤ a.created_at)
      (getRecentTasks limit tasks) ∧
    (∀ t ∈ getRecentTasks limit tasks, t ∈ tasks) ∧
    defaultRecentLimit = 10 := by
  refine ⟨?_, ?_, ?_, rfl⟩
  · rw [getRecentTasks, List.length_take,
      (List.mergeSort_perm tasks recentFirst).length_eq]
  · have hs := List.sorted_mergeSort recentFirst_trans recentFirst_total tasks
    have ht : List.Pairwise (fun a b : Task => recentFirst a b = true)
        (getRecentTasks limit tasks) :=
      List.Pairwise.sublist (List.take_sublist _ _) hs
    exact ht.imp fun h => by
      simpa only [recentFirst, decide_eq_true_eq] using h
  · intro t ht
    exact (List.mergeSort_perm tasks recentFirst).mem_iff.mp
      (List.take_subset _ _ ht)

/-- Concrete run of `getRecentTasks_spec`: with limit 1 over two stored tasks,
exactly one task is returned and the default limit is 10. -/
theorem getRecentTasks_spec_witness :
    (getRecentTasks 1 [exTaskRunning, exTaskCompleted]).length = min 1 2 ∧
    defaultRecentLimit = 10 :=
  ⟨(getRecentTasks_spec 1 [exTaskRunning, exTaskCompleted]).1,
   (getRecentTasks_spec 1 [exTaskRunning, exTaskCompleted]).2.2.2⟩

/-- Unfolding of `off` with a callback argument when the event has an entry. -/
theorem off_erase_eq {κ : Type} [DecidableEq κ] (event : String) (c : κ)
    (m : Registry κ) (cbs : List κ) (h : m event = some cbs) :
    off event (some c) m = fun e => if e = event then some (cbs.erase c) else m e := by
  unfold off
  rw [h]

/-- Removing a callback that is not in the event's list leaves the registry
unchanged. -/
theorem off_not_mem {κ : Type} [DecidableEq κ] (event : String) (c : κ)
    (m : Registry κ) (cbs : List κ) (h : m event = some cbs)
    (hc : c ∉ cbs) : off event (some c) m = m := by
  rw [off_erase_eq event c m cbs h]
  funext e
  by_cases he : e = event
  · subst he
    simp [List.erase_of_not_mem hc, h]
  · simp [he]

/-- Claim C9 fails on the code: `on` registers a callback as many times as it
is called, and `off` removes only the first occurrence found by `indexOf`.
With the callback registered twice, one `off` leaves one occurrence and a
second `off` removes it too, so applying unsubscribe twice differs from
applying it once. -/
theorem off_not_idempotent :
    off "e" (some 0) regDup "e" = some [0] ∧
    off "e" (some 0) (off "e" (some 0) regDup) "e" = some ([] : List Nat) ∧
    off "e" (some 0) (off "e" (some 0) regDup) "e" ≠ off "e" (some 0) regDup "e" := by
  decide

/-- Claim C9 (amended): removing a callback that is not in the event's list
(or whose event has no entry) leaves the registry unchanged, and `off` is
idempotent whenever the callback occurs at most once in the event's list;
with duplicate registrations `off` removes one occurrence per call, so the
unqualified idempotence of the claim fails. -/
theorem off_idempotent_of_count_le_one {κ : Type} [DecidableEq κ]
    (event : String) (c : κ) (m : Registry κ) (cbs : List κ)
    (h : m event = some cbs) (hcount : cbs.count c ≤ 1) :
    (c ∉ cbs → off event (some c) m = m) ∧
    off event (some c) (off event (some c) m) = off event (some c) m := by
  refine ⟨fun hc => off_not_mem event c m cbs h hc, ?_⟩
  have h1 := off_erase_eq event c m cbs h
  have h2 : (off event (some c) m) event = some (cbs.erase c) := by
    rw [h1]
    simp
  have hc2 : c ∉ cbs.erase c := by
    rw [← List.count_eq_zero]
    have := List.count_erase_self c cbs
    omega
  exact off_not_mem event c (off event (some c) m) (cbs.erase c) h2 hc2

/-- Concrete run of `off_idempotent_of_count_le_one` on a registry holding
callback 0 exactly once: a second `off` changes nothing. -/
theorem off_idempotent_of_count_le_one_witness :
    off "e" (some 0) (off "e" (some 0) regOne) = off "e" (some 0) regOne :=
  (off_idempotent_of_count_le_one "e" 0 regOne [0] (by decide) (by decide)).2

/-- Claim C3: a subscriber connecting while the task is RUNNING receives
exactly one snapshot event — the very first event of its stream — then the
live events, then exactly one terminal event, which is the last event of the
stream: never two terminal events and never zero. -/
theorem midRunSubscriberStream_spec (progress : Nat) (logTail : List TaskLog)
    (live : List SessionEvent) (finalStatus : TaskStatus) (finalProgress : Nat)
    (hlive : ∀ e ∈ live, e.isSnapshot = false ∧ e.isTerminalEvent = false)
    (hterm : finalStatus.isTerminal = true) :
    (midRunSubscriberStream progress logTail live finalStatus
        finalProgress).countP SessionEvent.isSnapshot = 1 ∧
    (midRunSubscriberStream progress logTail live finalStatus
        finalProgress).countP SessionEvent.isTerminalEvent = 1 ∧
    (midRunSubscriberStream progress logTail live finalStatus
        finalProgress).head? =
      some (SessionEvent.snapshot TaskStatus.RUNNING progress logTail) ∧
    (midRunSubscriberStream progress logTail live finalStatus
        finalProgress).getLast? =
      some (SessionEvent.taskUpdate finalStatus finalProgress) := by
  have hs : live.countP SessionEvent.isSnapshot = 0 :=
    List.countP_eq_zero.mpr fun e he => by simp [(hlive e he).1]
  have ht : live.countP SessionEvent.isTerminalEvent = 0 :=
    List.countP_eq_zero.mpr fun e he => by simp [(hlive e he).2]
  refine ⟨?_, ?_, rfl, ?_⟩
  · simp [midRunSubscriberStream, List.countP_cons, List.countP_append, hs,
      SessionEvent.isSnapshot]
  · simp [midRunSubscriberStream, List.countP_cons, List.countP_append, ht,
      SessionEvent.isTerminalEvent, hterm]
  · rw [midRunSubscriberStream, ← List.cons_append, List.getLast?_append]
    rfl

/-- Concrete run of `midRunSubscriberStream_spec`: snapshot at progress 42,
one live update, terminal COMPLETED event. -/
theorem midRunSubscriberStream_spec_witness :
    (midRunSubscriberStream 42 [] [SessionEvent.taskUpdate TaskStatus.RUNNING 66]
        TaskStatus.COMPLETED 100).countP SessionEvent.isSnapshot = 1 ∧
    (midRunSubscriberStream 42 [] [SessionEvent.taskUpdate TaskStatus.RUNNING 66]
        TaskStatus.COMPLETED 100).countP SessionEvent.isTerminalEvent = 1 ∧
    (midRunSubscriberStream 42 [] [SessionEvent.taskUpdate TaskStatus.RUNNING 66]
        TaskStatus.COMPLETED 100).head? =
      some (SessionEvent.snapshot TaskStatus.RUNNING 42 []) ∧
    (midRunSubscriberStream 42 [] [SessionEvent.taskUpdate TaskStatus.RUNNING 66]
        TaskStatus.COMPLETED 100).getLast? =
      some (SessionEvent.taskUpdate TaskStatus.COMPLETED 100) :=
  midRunSubscriberStream_spec 42 [] [SessionEvent.taskUpdate TaskStatus.RUNNING 66]
    TaskStatus.COMPLETED 100 (by decide) (by decide)

end InsightAgent
